import Mathlib

/-!
Shallow embedding of the two C++ variants of the Gautier iteration test
(`src/program.cxx` and `src/program_optimized.cxx`).

Both programs share the integer type `n_type = uint_fast32_t`, an unsigned
type whose bit width `w` is at least 32 (64 on common 64-bit platforms);
all iteration counters and the running sum are computed modulo `2 ^ w`.
The clock, the standard-input stream, and the success of file opens and
appends are environment inputs; they are modelled as explicit parameters
(a function from read events or monotonic milliseconds to clock values,
an abstract input token, and per-cycle boolean outcomes).
-/

namespace Gautier

/-- Environment-determined facts about one cycle of the main `for` loop:
how many times the timed loop body executed before the clock-driven exit
condition fired, whether `std::ofstream ofs(detailFilePath)` opened
(`ofs.is_open()`), and whether the append `std::ofstream` for
`CycleLog/Iteration.txt` succeeded. -/
structure CycleEnv where
  bodyCount : Nat
  detailOpenOk : Bool
  summaryAppendOk : Bool
deriving DecidableEq

/-- The per-cycle record the program logs: the 1-based loop variable
`cycle` and the final value of `iterations`. -/
structure CycleResult where
  cycleIndex : Nat
  iterationCount : Nat
deriving DecidableEq

/-- Observable state threaded through the `for(cycle = 1; cycle <= cycles; ++cycle)`
loop of `main`: the cycle records produced so far, the running
`sumOfIterations` (an `n_type`, hence modulo `2 ^ w`), how many detail
files were actually written, how many blocks were actually appended to
`CycleLog/Iteration.txt`, and every line the loop wrote to `std::cerr`. -/
structure RunState where
  results : List CycleResult
  sumOfIterations : Nat
  detailFilesWritten : Nat
  summaryBlocksAppended : Nat
  errLines : List String
deriving DecidableEq

/-- One iteration of the outer cycle loop (both variants, `src/program.cxx`
lines 129-232 and `src/program_optimized.cxx` lines 137-244).  The timed
loop body sets `iterations = i + 1; ++i`, both `n_type`, so after `k` body
executions `iterations = k % 2 ^ w`.  Then `sumOfIterations += iterations`
(again `n_type` arithmetic).  The detail file is written only under
`if(ofs.is_open())` and nothing is written to `std::cerr` when the open
fails; the summary-log append is performed with no success check at all,
so a failed append changes nothing and is not reported either.  No path
in the loop aborts the run. -/
def runCycle (w : Nat) (cycle : Nat) (env : CycleEnv) (st : RunState) : RunState :=
  { results := st.results ++ [⟨cycle, env.bodyCount % 2 ^ w⟩]
    sumOfIterations := (st.sumOfIterations + env.bodyCount % 2 ^ w) % 2 ^ w
    detailFilesWritten := st.detailFilesWritten + (if env.detailOpenOk then 1 else 0)
    summaryBlocksAppended := st.summaryBlocksAppended + (if env.summaryAppendOk then 1 else 0)
    errLines := st.errLines }

/-- The cycle loop from loop variable `c` onward, consuming one
environment record per remaining cycle. -/
def runCyclesFrom (w : Nat) : Nat → List CycleEnv → RunState → RunState
  | _, [], st => st
  | c, e :: es, st => runCyclesFrom w (c + 1) es (runCycle w c e st)

/-- State before the first cycle: no results, `sumOfIterations = 0`. -/
def initState : RunState := ⟨[], 0, 0, 0, []⟩

/-- The whole cycle loop: cycles numbered from 1, one `CycleEnv` per cycle. -/
def runCycles (w : Nat) (envs : List CycleEnv) : RunState :=
  runCyclesFrom w 1 envs initState

/-- The part of `main` after the directory check succeeds: run the cycle
loop, then `return 0`.  There is no `return`, `exit`, `break` or `throw`
anywhere in the loop, so this part of `main` always reaches `return 0`. -/
def mainAfterDirs (w : Nat) (envs : List CycleEnv) : RunState × Nat :=
  (runCycles w envs, 0)

/-- What arrives on standard input when `std::cin >> cycles` runs: either
a (possibly signed) decimal numeral, or a token that is not a numeral. -/
inductive StdInput where
  | numeric (n : Int)
  | nonNumeric
deriving DecidableEq

/-- Semantics of `std::cin >> cycles` for the unsigned type `n_type`
(width `w`), per the C++ standard's `num_get` (C++11 and later):
a non-numeral leaves the stream failed and stores 0; a numeral is
converted as by `strtoull`, which accepts a leading minus sign and
reduces the value modulo `2 ^ w` (so `-1` stores `2 ^ w - 1` with the
stream still good); only a numeral whose magnitude exceeds `2 ^ w - 1`
fails, storing the maximum value.  Returns
(`std::cin.good()` afterwards, stored value). -/
def cinExtractUnsigned (w : Nat) : StdInput → Bool × Nat
  | StdInput.nonNumeric => (false, 0)
  | StdInput.numeric n =>
      if n.natAbs ≤ 2 ^ w - 1 then (true, (n % (2 ^ w : Int)).toNat)
      else (false, 2 ^ w - 1)

/-- Lines 104-111 of `src/program.cxx` (110-119 of the optimized variant):
`std::cin >> cycles; if(!std::cin.good() || cycles < 1)` emit
`Invalid input; defaulting to 1.` on `std::cerr` and set `cycles = 1`.
Returns the effective cycle count and whether the warning was emitted. -/
def readCycleCount (w : Nat) (inp : StdInput) : Nat × Bool :=
  if !(cinExtractUnsigned w inp).1 || (cinExtractUnsigned w inp).2 < 1 then (1, true)
  else ((cinExtractUnsigned w inp).2, false)

/-- The days/hours/minutes/seconds/milliseconds decomposition the final
summary prints. -/
structure ElapsedBreakdown where
  days : Nat
  hours : Nat
  minutes : Nat
  seconds : Nat
  ms : Nat
deriving DecidableEq

/-- Lines 241-248 of `src/program.cxx` (251-258 of the optimized variant):
successive division and remainder of the total elapsed milliseconds by
`1000*60*60*24`, `1000*60*60`, `1000*60` and `1000`. -/
def elapsedBreakdown (totalMs : Nat) : ElapsedBreakdown :=
  { days := totalMs / (1000 * 60 * 60 * 24)
    hours := totalMs % (1000 * 60 * 60 * 24) / (1000 * 60 * 60)
    minutes := totalMs % (1000 * 60 * 60 * 24) % (1000 * 60 * 60) / (1000 * 60)
    seconds := totalMs % (1000 * 60 * 60 * 24) % (1000 * 60 * 60) % (1000 * 60) / 1000
    ms := totalMs % (1000 * 60 * 60 * 24) % (1000 * 60 * 60) % (1000 * 60) % 1000 }

/-- Line 253 of `src/program.cxx` (263 of the optimized variant):
`avgOpsPerSec = (cycles > 0) ? (sumOfIterations / cycles) : 0`, unsigned
(hence truncating) division. -/
def avgOpsPerSec (sumOfIterations cycles : Nat) : Nat :=
  if 0 < cycles then sumOfIterations / cycles else 0

/-- Alignment-pause loop of `src/program.cxx`, lines 149-164.  The clock
samples `getCurrentSecond()` are numbered in the order the program takes
them: `s 0` initialises `pauseMs`, then the loop alternates a check read
(odd index) with a post-sleep `pauseMs` read (even index).  Each executed
sleep is recorded as (the second-of-minute sample the `% 8` check saw,
the sleep duration in ms).  `fuel` bounds the number of loop turns; the
code itself has no bound (it spins while checks keep hitting multiples
of 8). -/
def cxxPauseLoop (s : Nat → Nat) : Nat → Nat → Nat → List (Nat × Nat)
  | 0, _, _ => []
  | fuel + 1, ridx, pauseMs =>
      if s ridx % 8 = 0 then
        (s ridx, pauseMs) :: cxxPauseLoop s fuel (ridx + 2) (s (ridx + 1) * 100)
      else []

/-- The pause loop as entered at lines 150-152 of `src/program.cxx`:
`pauseMs = getCurrentSecond() * 100u` (read 0), then the first check
reads sample 1. -/
def cxxPauseRun (s : Nat → Nat) (fuel : Nat) : List (Nat × Nat) :=
  cxxPauseLoop s fuel 1 (s 0 * 100)

/-- Alignment-pause loop of `src/program_optimized.cxx`, lines 158-181:
one sample per turn, used both for the `tm_sec % 8 == 0` check and for
`pauseMs = tm_sec * 100`; the clock is re-read after each sleep. -/
def optPauseLoop (s : Nat → Nat) : Nat → Nat → List (Nat × Nat)
  | 0, _ => []
  | fuel + 1, ridx =>
      if s ridx % 8 = 0 then
        (s ridx, s ridx * 100) :: optPauseLoop s fuel (ridx + 1)
      else []

/-- The optimized pause loop as entered: the first check reads sample 0. -/
def optPauseRun (s : Nat → Nat) (fuel : Nat) : List (Nat × Nat) :=
  optPauseLoop s fuel 0

/-- Timed loop of `src/program.cxx`, lines 174-197, over a timeline:
`secAt t` is the local second-of-minute `getCurrentSecond()` returns at
monotonic millisecond `t`, and each loop body costs `cost` ms, ending
with the read at line 196 that the `while(currentSecond == startSecond)`
condition inspects.  `startSec` is the second-of-minute read before the
loop.  Returns (number of body executions, monotonic time of the read
that ended the loop), or `none` when `fuel` turns did not suffice. -/
def wallLoop (secAt : Nat → Nat) (cost startSec : Nat) : Nat → Nat → Option (Nat × Nat)
  | 0, _ => none
  | fuel + 1, t =>
      if secAt (t + cost) = startSec then
        match wallLoop secAt cost startSec fuel (t + cost) with
        | some (k, te) => some (k + 1, te)
        | none => none
      else some (1, t + cost)

/-- The `src/program.cxx` timed loop as entered at monotonic time `t0`:
`startSecond = getCurrentSecond()` is the read at `t0`, and since
`currentSecond` is initialised to `startSecond`, at least one body
always runs. -/
def wallRun (secAt : Nat → Nat) (cost t0 fuel : Nat) : Option (Nat × Nat) :=
  wallLoop secAt cost (secAt t0) fuel t0

/-- Timed loop of `src/program_optimized.cxx`, lines 183-210:
`while(std::chrono::steady_clock::now() < endTp)` with the deadline
fixed once.  The condition is checked before each body; a body costs
`cost` ms.  Returns (bodies executed, monotonic time of the condition
read that exited the loop). -/
def monoLoop (cost deadline : Nat) : Nat → Nat → Option (Nat × Nat)
  | 0, t => if deadline ≤ t then some (0, t) else none
  | fuel + 1, t =>
      if deadline ≤ t then some (0, t)
      else
        match monoLoop cost deadline fuel (t + cost) with
        | some (k, te) => some (k + 1, te)
        | none => none

/-- The optimized timed loop as entered: `startTp = steady_clock::now()`
at `t0` and `endTp = startTp + std::chrono::seconds(1)`, i.e. a deadline
of `t0 + 1000` milliseconds. -/
def monoRun (cost t0 fuel : Nat) : Option (Nat × Nat) :=
  monoLoop cost (t0 + 1000) fuel t0

/-- `std::string(n, c)`: a row of `n` copies of the character with code
`c` (42 is the asterisk, 95 the underscore). -/
def charRow (n code : Nat) : String :=
  String.mk (List.replicate n (Char.ofNat code))

/-- Summary-log cycle block appended by `src/program.cxx`, lines 224-231:
the `***<tab><cycle><tab><60 asterisks>` preamble, the start timestamp,
the raw iteration count, the end timestamp, then a blank line. -/
def cxxCycleBlock (cycle : Nat) (startStr : String) (iterations : Nat)
    (endStr : String) : List String :=
  ["***\t" ++ toString cycle ++ "\t" ++ charRow 60 42, startStr,
    toString iterations, endStr, ""]

/-- Summary-log cycle block appended by `src/program_optimized.cxx`,
lines 237-243. -/
def optCycleBlock (cycle : Nat) (startStr : String) (iterations : Nat)
    (endStr : String) : List String :=
  ["***\t" ++ toString cycle ++ "\t" ++ charRow 60 42, startStr,
    toString iterations, endStr, ""]

/-- Progress-sample line buffered by `src/program.cxx`, lines 192-193;
`g` is the locale-dependent `formatWithCommas`. -/
def cxxProgressLine (g : Nat → String) (cycle cycles i : Nat) (ts : String) : String :=
  "Cycle " ++ g cycle ++ " of " ++ g cycles ++ " Iteration " ++ g i ++ " " ++ ts

/-- Progress-sample line buffered by `src/program_optimized.cxx`,
lines 207-208. -/
def optProgressLine (g : Nat → String) (cycle cycles i : Nat) (ts : String) : String :=
  "Cycle " ++ g cycle ++ " of " ++ g cycles ++ " Iteration " ++ g i ++ " " ++ ts

/-- The progress-sample cadence of `src/program.cxx`, line 187:
a sample is taken when `i % 100000u == 0u`. -/
def cxxSampleAt (i : Nat) : Bool := i % 100000 == 0

/-- The progress-sample cadence of `src/program_optimized.cxx`, line 203. -/
def optSampleAt (i : Nat) : Bool := i % 100000 == 0

/-- Trailing detail-file summary line of `src/program.cxx`, lines 206-208. -/
def cxxDetailSummaryLine (g : Nat → String) (iterations : Nat)
    (startStr endStr : String) : String :=
  "Iterations " ++ g iterations ++ " Start " ++ startStr ++ " ... End " ++ endStr

/-- Trailing detail-file summary line of `src/program_optimized.cxx`,
lines 218-220. -/
def optDetailSummaryLine (g : Nat → String) (iterations : Nat)
    (startStr endStr : String) : String :=
  "Iterations " ++ g iterations ++ " Start " ++ startStr ++ " ... End " ++ endStr

/-- Pause line buffered by `src/program.cxx`, line 159. -/
def cxxPauseLine (pauseMs : Nat) : String :=
  "Paused for " ++ toString pauseMs ++ "ms"

/-- Pause line buffered by `src/program_optimized.cxx`, line 173. -/
def optPauseLine (pauseMs : Nat) : String :=
  "Paused for " ++ toString pauseMs ++ "ms"

/-- Final summary block appended by `src/program.cxx`, lines 268-280. -/
def cxxFinalBlock (sum cycles avg : Nat) (startStr endStr : String)
    (b : ElapsedBreakdown) : List String :=
  ["******\tSum: " ++ toString sum ++ " operations across " ++ toString cycles ++
      " cycles *********",
    "Cycle started: " ++ startStr ++ " ... Cycle ended: " ++ endStr ++ " **********",
    "Average: " ++ toString avg ++ " operations per second **********",
    "Time: " ++ toString b.days ++ " days " ++ toString b.hours ++ " hrs " ++
      toString b.minutes ++ " min " ++ toString b.seconds ++ " sec " ++
      toString b.ms ++ " ms",
    charRow 33 95]

/-- Final summary block appended by `src/program_optimized.cxx`,
lines 278-290. -/
def optFinalBlock (sum cycles avg : Nat) (startStr endStr : String)
    (b : ElapsedBreakdown) : List String :=
  ["******\tSum: " ++ toString sum ++ " operations across " ++ toString cycles ++
      " cycles *********",
    "Cycle started: " ++ startStr ++ " ... Cycle ended: " ++ endStr ++ " **********",
    "Average: " ++ toString avg ++ " operations per second **********",
    "Time: " ++ toString b.days ++ " days " ++ toString b.hours ++ " hrs " ++
      toString b.minutes ++ " min " ++ toString b.seconds ++ " sec " ++
      toString b.ms ++ " ms",
    charRow 33 95]

/-- Two cycles at width 64 whose body counts make the true sum of the
recorded iteration counts reach `2 ^ 64`. -/
def c1CexEnvs : List CycleEnv := [⟨2 ^ 63, true, true⟩, ⟨2 ^ 63, true, true⟩]

/-- A concrete `getCurrentSecond()` sample sequence: 7 before the pause
check, 8 at the check, 9 after the sleep, 3 at the second check. -/
def c4Secs : Nat → Nat := fun i => [7, 8, 9, 3].getD i 0

/-- Two cycles at width 64; the detail-file open fails in cycle 1. -/
def c5CexEnvs : List CycleEnv := [⟨12345, false, true⟩, ⟨67890, true, true⟩]

/-- Two cycles at width 64; the summary-log append fails in cycle 1. -/
def c6CexEnvs : List CycleEnv := [⟨111, true, false⟩, ⟨222, true, true⟩]

/-- Modulus `2 ^ w` is positive. -/
theorem modulusPos (w : Nat) : 0 < 2 ^ w := Nat.pos_pow_of_pos w (by decide)

theorem runCyclesFrom_len (w : Nat) :
    ∀ (es : List CycleEnv) (c : Nat) (st : RunState),
      (runCyclesFrom w c es st).results.length = st.results.length + es.length := by
  intro es
  induction es with
  | nil => intro c st; simp [runCyclesFrom]
  | cons e es ih =>
      intro c st
      simp only [runCyclesFrom]
      rw [ih]
      simp [runCycle]
      omega

theorem runCyclesFrom_idx (w : Nat) :
    ∀ (es : List CycleEnv) (c : Nat) (st : RunState),
      (runCyclesFrom w c es st).results.map (fun r => r.cycleIndex) =
        st.results.map (fun r => r.cycleIndex) ++ List.range' c es.length := by
  intro es
  induction es with
  | nil => intro c st; simp [runCyclesFrom]
  | cons e es ih =>
      intro c st
      simp only [runCyclesFrom]
      rw [ih]
      simp [runCycle, List.range'_succ]

theorem runCyclesFrom_iterCounts (w : Nat) :
    ∀ (es : List CycleEnv) (c : Nat) (st : RunState),
      (runCyclesFrom w c es st).results.map (fun r => r.iterationCount) =
        st.results.map (fun r => r.iterationCount) ++
          es.map (fun e => e.bodyCount % 2 ^ w) := by
  intro es
  induction es with
  | nil => intro c st; simp [runCyclesFrom]
  | cons e es ih =>
      intro c st
      simp only [runCyclesFrom]
      rw [ih]
      simp [runCycle]

theorem runCyclesFrom_err (w : Nat) :
    ∀ (es : List CycleEnv) (c : Nat) (st : RunState),
      (runCyclesFrom w c es st).errLines = st.errLines := by
  intro es
  induction es with
  | nil => intro c st; simp [runCyclesFrom]
  | cons e es ih =>
      intro c st
      simp only [runCyclesFrom]
      rw [ih]
      rfl

theorem runCyclesFrom_detail (w : Nat) :
    ∀ (es : List CycleEnv) (c : Nat) (st : RunState),
      (runCyclesFrom w c es st).detailFilesWritten =
        st.detailFilesWritten + es.countP (fun e => e.detailOpenOk) := by
  intro es
  induction es with
  | nil => intro c st; simp [runCyclesFrom]
  | cons e es ih =>
      intro c st
      simp only [runCyclesFrom]
      rw [ih]
      simp [runCycle, List.countP_cons]
      by_cases h : e.detailOpenOk <;> simp [h] <;> omega

theorem runCyclesFrom_summary (w : Nat) :
    ∀ (es : List CycleEnv) (c : Nat) (st : RunState),
      (runCyclesFrom w c es st).summaryBlocksAppended =
        st.summaryBlocksAppended + es.countP (fun e => e.summaryAppendOk) := by
  intro es
  induction es with
  | nil => intro c st; simp [runCyclesFrom]
  | cons e es ih =>
      intro c st
      simp only [runCyclesFrom]
      rw [ih]
      simp [runCycle, List.countP_cons]
      by_cases h : e.summaryAppendOk <;> simp [h] <;> omega

theorem runCyclesFrom_sum (w : Nat) :
    ∀ (es : List CycleEnv) (c : Nat) (st : RunState),
      st.sumOfIterations < 2 ^ w →
      (runCyclesFrom w c es st).sumOfIterations =
        (st.sumOfIterations + (es.map (fun e => e.bodyCount)).sum) % 2 ^ w := by
  intro es
  induction es with
  | nil =>
      intro c st hst
      simp [runCyclesFrom, Nat.mod_eq_of_lt hst]
  | cons e es ih =>
      intro c st hst
      simp only [runCyclesFrom, runCycle]
      rw [ih]
      · rw [Nat.mod_add_mod, List.map_cons, List.sum_cons, ← Nat.add_assoc]
        exact ((Nat.mod_modEq e.bodyCount (2 ^ w)).add_left st.sumOfIterations).add_right _
      · exact Nat.mod_lt _ (modulusPos w)

theorem runCycles_len (w : Nat) (envs : List CycleEnv) :
    (runCycles w envs).results.length = envs.length := by
  unfold runCycles
  rw [runCyclesFrom_len]
  simp [initState]

theorem runCycles_idx (w : Nat) (envs : List CycleEnv) :
    (runCycles w envs).results.map (fun r => r.cycleIndex) =
      List.range' 1 envs.length := by
  unfold runCycles
  rw [runCyclesFrom_idx]
  simp [initState]

theorem runCycles_iterCounts (w : Nat) (envs : List CycleEnv) :
    (runCycles w envs).results.map (fun r => r.iterationCount) =
      envs.map (fun e => e.bodyCount % 2 ^ w) := by
  unfold runCycles
  rw [runCyclesFrom_iterCounts]
  simp [initState]

theorem runCycles_sum (w : Nat) (envs : List CycleEnv) :
    (runCycles w envs).sumOfIterations =
      (envs.map (fun e => e.bodyCount)).sum % 2 ^ w := by
  unfold runCycles
  rw [runCyclesFrom_sum w envs 1 initState (modulusPos w)]
  simp [initState]

theorem runCycles_err (w : Nat) (envs : List CycleEnv) :
    (runCycles w envs).errLines = [] := by
  unfold runCycles
  rw [runCyclesFrom_err]
  rfl

theorem runCycles_detail (w : Nat) (envs : List CycleEnv) :
    (runCycles w envs).detailFilesWritten = envs.countP (fun e => e.detailOpenOk) := by
  unfold runCycles
  rw [runCyclesFrom_detail]
  simp [initState]

theorem runCycles_summary (w : Nat) (envs : List CycleEnv) :
    (runCycles w envs).summaryBlocksAppended =
      envs.countP (fun e => e.summaryAppendOk) := by
  unfold runCycles
  rw [runCyclesFrom_summary]
  simp [initState]

theorem sum_map_mod (M : Nat) :
    ∀ l : List Nat, (l.map (fun k => k % M)).sum % M = l.sum % M := by
  intro l
  induction l with
  | nil => rfl
  | cons a l ih =>
      simp only [List.map_cons, List.sum_cons]
      have h1 : (a % M + (l.map (fun k => k % M)).sum) % M =
          (a + (l.map (fun k => k % M)).sum) % M :=
        (Nat.mod_modEq a M).add_right _
      have h2 : (a + (l.map (fun k => k % M)).sum) % M = (a + l.sum) % M := by
        rw [Nat.add_mod, ih, ← Nat.add_mod]
      exact h1.trans h2

theorem monoLoop_exit (cost d : Nat) :
    ∀ (fuel t k te : Nat), monoLoop cost d fuel t = some (k, te) →
      te = t + k * cost ∧ d ≤ te ∧ ∀ j < k, t + j * cost < d := by
  intro fuel
  induction fuel with
  | zero =>
      intro t k te h
      simp only [monoLoop] at h
      by_cases hd : d ≤ t
      · rw [if_pos hd] at h
        simp only [Option.some.injEq, Prod.mk.injEq] at h
        obtain ⟨hk, hte⟩ := h
        subst hk
        subst hte
        exact ⟨by simp, hd, by omega⟩
      · rw [if_neg hd] at h
        simp at h
  | succ fuel ih =>
      intro t k te h
      simp only [monoLoop] at h
      by_cases hd : d ≤ t
      · rw [if_pos hd] at h
        simp only [Option.some.injEq, Prod.mk.injEq] at h
        obtain ⟨hk, hte⟩ := h
        subst hk
        subst hte
        exact ⟨by simp, hd, by omega⟩
      · rw [if_neg hd] at h
        cases hm : monoLoop cost d fuel (t + cost) with
        | none => rw [hm] at h; simp at h
        | some p =>
            obtain ⟨k0, te0⟩ := p
            rw [hm] at h
            simp only [Option.some.injEq, Prod.mk.injEq] at h
            obtain ⟨hk, hte⟩ := h
            obtain ⟨h1, h2, h3⟩ := ih (t + cost) k0 te0 hm
            subst hte
            refine ⟨?_, h2, ?_⟩
            · rw [h1, ← hk]
              ring
            · intro j hj
              cases j with
              | zero => simpa using Nat.lt_of_not_le hd
              | succ j0 =>
                  have hj0 : j0 < k0 := by omega
                  have := h3 j0 hj0
                  have harith : t + (j0 + 1) * cost = t + cost + j0 * cost := by ring
                  rw [harith]
                  exact this

theorem monoLoop_terminates (cost d : Nat) :
    ∀ (fuel t : Nat), d ≤ t + fuel * cost →
      ∃ k te, monoLoop cost d fuel t = some (k, te) := by
  intro fuel
  induction fuel with
  | zero =>
      intro t h
      rw [Nat.zero_mul, Nat.add_zero] at h
      exact ⟨0, t, by simp [monoLoop, h]⟩
  | succ fuel ih =>
      intro t h
      by_cases hd : d ≤ t
      · exact ⟨0, t, by simp [monoLoop, hd]⟩
      · obtain ⟨k, te, hk⟩ := ih (t + cost) (by rw [Nat.succ_mul] at h; omega)
        exact ⟨k + 1, te, by simp [monoLoop, hd, hk]⟩

theorem wallLoop_exit (secAt : Nat → Nat) (cost s : Nat) :
    ∀ (fuel t k te : Nat), wallLoop secAt cost s fuel t = some (k, te) →
      te = t + k * cost ∧ secAt te ≠ s ∧ 1 ≤ k ∧
      ∀ j, 1 ≤ j → j < k → secAt (t + j * cost) = s := by
  intro fuel
  induction fuel with
  | zero => intro t k te h; simp [wallLoop] at h
  | succ fuel ih =>
      intro t k te h
      simp only [wallLoop] at h
      by_cases hs : secAt (t + cost) = s
      · rw [if_pos hs] at h
        cases hm : wallLoop secAt cost s fuel (t + cost) with
        | none => rw [hm] at h; simp at h
        | some p =>
            obtain ⟨k0, te0⟩ := p
            rw [hm] at h
            simp only [Option.some.injEq, Prod.mk.injEq] at h
            obtain ⟨hk, hte⟩ := h
            obtain ⟨h1, h2, h3, h4⟩ := ih (t + cost) k0 te0 hm
            subst hte
            refine ⟨?_, h2, by omega, ?_⟩
            · rw [h1, ← hk]
              ring
            · intro j hj1 hjk
              cases j with
              | zero => omega
              | succ j0 =>
                  rcases Nat.lt_or_ge j0 1 with hj0 | hj0
                  · have : j0 = 0 := by omega
                    subst this
                    simpa using hs
                  · have harith : t + (j0 + 1) * cost = t + cost + j0 * cost := by ring
                    rw [harith]
                    exact h4 j0 hj0 (by omega)
      · rw [if_neg hs] at h
        simp only [Option.some.injEq, Prod.mk.injEq] at h
        obtain ⟨hk, hte⟩ := h
        subst hte
        refine ⟨by rw [← hk]; ring, hs, by omega, ?_⟩
        intro j hj1 hjk
        omega

theorem optPauseLoop_mem (s : Nat → Nat) :
    ∀ (fuel ridx : Nat) (p : Nat × Nat), p ∈ optPauseLoop s fuel ridx →
      p.1 % 8 = 0 ∧ p.2 = p.1 * 100 := by
  intro fuel
  induction fuel with
  | zero => intro ridx p h; simp [optPauseLoop] at h
  | succ fuel ih =>
      intro ridx p h
      simp only [optPauseLoop] at h
      by_cases hc : s ridx % 8 = 0
      · rw [if_pos hc] at h
        rcases List.mem_cons.mp h with h | h
        · subst h
          exact ⟨hc, rfl⟩
        · exact ih _ p h
      · rw [if_neg hc] at h
        simp at h

theorem cxxPauseLoop_entries (s : Nat → Nat) :
    ∀ (fuel j i : Nat) (p : Nat × Nat),
      (cxxPauseLoop s fuel (2 * j + 1) (s (2 * j) * 100)).get? i = some p →
      p = (s (2 * (j + i) + 1), s (2 * (j + i)) * 100) ∧ s (2 * (j + i) + 1) % 8 = 0 := by
  intro fuel
  induction fuel with
  | zero => intro j i p h; simp [cxxPauseLoop] at h
  | succ fuel ih =>
      intro j i p h
      simp only [cxxPauseLoop] at h
      by_cases hc : s (2 * j + 1) % 8 = 0
      · rw [if_pos hc] at h
        cases i with
        | zero =>
            rw [List.get?_cons_zero] at h
            simp only [Option.some.injEq] at h
            subst h
            simpa using hc
        | succ i0 =>
            rw [List.get?_cons_succ] at h
            have ha : 2 * j + 1 + 2 = 2 * (j + 1) + 1 := by ring
            have hb : 2 * j + 1 + 1 = 2 * (j + 1) := by ring
            rw [ha, hb] at h
            have := ih (j + 1) i0 p h
            have hc2 : j + 1 + i0 = j + (i0 + 1) := by ring
            rw [hc2] at this
            exact this
      · rw [if_neg hc] at h
        simp at h

/-- Claim C1, as stated, is false at a concrete input: at width 64, two
cycles whose timed loops each ran `2 ^ 63` bodies record iteration counts
`2 ^ 63` and `2 ^ 63`, but `sumOfIterations` is an `n_type` and wraps to
0, which is not the exact sum `2 ^ 64` of the recorded counts. -/
theorem C1_counterexample :
    (runCycles 64 c1CexEnvs).sumOfIterations ≠
      ((runCycles 64 c1CexEnvs).results.map (fun r => r.iterationCount)).sum := by
  decide

/-- Claim C1 (amended): for every cycle count `N ≥ 1`, the cycle loop
executes exactly `N` cycles, with `cycleIndex` taking exactly the values
`1..N` in order, and the final total equals the sum of the recorded
per-cycle iteration counts reduced modulo `2 ^ w` (so it equals the
exact sum whenever that sum is below `2 ^ w`). -/
theorem C1_cycle_loop (w : Nat) (envs : List CycleEnv) (hN : 1 ≤ envs.length) :
    (runCycles w envs).results.length = envs.length ∧
    (runCycles w envs).results.map (fun r => r.cycleIndex) =
      List.range' 1 envs.length ∧
    (runCycles w envs).sumOfIterations =
      ((runCycles w envs).results.map (fun r => r.iterationCount)).sum % 2 ^ w := by
  refine ⟨runCycles_len w envs, runCycles_idx w envs, ?_⟩
  rw [runCycles_sum, runCycles_iterCounts]
  rw [show (envs.map fun e => e.bodyCount % 2 ^ w) =
      ((envs.map fun e => e.bodyCount).map fun k => k % 2 ^ w) by
    simp [List.map_map, Function.comp]]
  rw [sum_map_mod]

/-- Concrete instance of the amended C1 at width 64 with two cycles. -/
theorem C1_cycle_loop_witness :
    (runCycles 64 [⟨3, true, true⟩, ⟨5, true, true⟩]).results.length =
      ([⟨3, true, true⟩, ⟨5, true, true⟩] : List CycleEnv).length ∧
    (runCycles 64 [⟨3, true, true⟩, ⟨5, true, true⟩]).results.map
        (fun r => r.cycleIndex) =
      List.range' 1 ([⟨3, true, true⟩, ⟨5, true, true⟩] : List CycleEnv).length ∧
    (runCycles 64 [⟨3, true, true⟩, ⟨5, true, true⟩]).sumOfIterations =
      ((runCycles 64 [⟨3, true, true⟩, ⟨5, true, true⟩]).results.map
        (fun r => r.iterationCount)).sum % 2 ^ 64 :=
  C1_cycle_loop 64 [⟨3, true, true⟩, ⟨5, true, true⟩] (by decide)

/-- Claim C2, as stated, is false for the loop of `src/program.cxx`: on a
timeline where the second-of-minute ticks from 0 to 1 just after the loop
starts (`secAt t = t / 100`, start at monotonic ms 95, one body costing
10 ms), the loop exits at monotonic ms 105, after 10 ms — not after at
least one second on the monotonic clock. -/
theorem C2_counterexample :
    wallRun (fun t => t / 100) 10 95 5 = some (1, 105) ∧
    ¬ (95 + 1000 ≤ 105) := by
  decide

/-- Claim C2 (amended): the loop of `src/program_optimized.cxx` exits
exactly when the monotonic clock first reads at least `startTimestamp +
1 second` (every earlier check read was below the deadline), and it does
exit once the clock passes the deadline; the loop of `src/program.cxx`
instead exits at the first read whose wall-clock second-of-minute
differs from the starting second, which need not be one second after the
start.  Neither loop body contains any induced delay (the models advance
only by the body's own computation cost). -/
theorem C2_exit_conditions :
    (∀ (cost t0 fuel k te : Nat), monoRun cost t0 fuel = some (k, te) →
      te = t0 + k * cost ∧ t0 + 1000 ≤ te ∧ ∀ j < k, t0 + j * cost < t0 + 1000) ∧
    (∀ (cost t0 fuel : Nat), t0 + 1000 ≤ t0 + fuel * cost →
      ∃ k te, monoRun cost t0 fuel = some (k, te)) ∧
    (∀ (secAt : Nat → Nat) (cost t0 fuel k te : Nat),
      wallRun secAt cost t0 fuel = some (k, te) →
      te = t0 + k * cost ∧ secAt te ≠ secAt t0 ∧ 1 ≤ k ∧
      ∀ j, 1 ≤ j → j < k → secAt (t0 + j * cost) = secAt t0) :=
  ⟨fun cost t0 fuel k te h => monoLoop_exit cost (t0 + 1000) fuel t0 k te h,
   fun cost t0 fuel h => monoLoop_terminates cost (t0 + 1000) fuel t0 h,
   fun secAt cost t0 fuel k te h => wallLoop_exit secAt cost (secAt t0) fuel t0 k te h⟩

/-- Concrete instance of the amended C2: with 100 ms bodies started at
monotonic ms 0, the optimized loop exits at exactly ms 1000 after 10
bodies. -/
theorem C2_exit_conditions_witness :
    (1000 : Nat) = 0 + 10 * 100 ∧ 0 + 1000 ≤ 1000 :=
  ⟨(C2_exit_conditions.1 100 0 15 10 1000 (by decide)).1,
   (C2_exit_conditions.1 100 0 15 10 1000 (by decide)).2.1⟩

/-- Claim C3, as stated, is false at a concrete input: on the same
timeline (`secAt t = t / 1000`, 50 ms bodies, measurement starting at
monotonic ms 900, i.e. mid-second), the wall-clock loop of
`src/program.cxx` runs 2 bodies (exiting when the second changes at ms
1000) while the monotonic-deadline loop of `src/program_optimized.cxx`
runs 20 bodies (exiting at ms 1900), so the detail files' trailing
`Iterations ...` lines differ. -/
theorem C3_counterexample :
    wallRun (fun t => t / 1000) 50 900 30 = some (2, 1000) ∧
    monoRun 50 900 30 = some (20, 1900) ∧
    cxxDetailSummaryLine (fun n => toString n) 2 "s" "e" ≠
      optDetailSummaryLine (fun n => toString n) 20 "s" "e" := by
  decide

/-- Claim C3 (amended): the two variants share the same log-record
formats — identical summary-log cycle-block layout, progress-line
format, progress-sample cadence (every 100000th iteration), detail-file
summary line, pause-line format and final-summary block layout — but not
the same contents: for the same clock behaviour the measured windows
differ (wall-clock second-equality versus a monotonic one-second
deadline), so the recorded iteration counts can differ. -/
theorem C3_same_formats :
    (∀ (cycle : Nat) (startStr : String) (iterations : Nat) (endStr : String),
      cxxCycleBlock cycle startStr iterations endStr =
        optCycleBlock cycle startStr iterations endStr) ∧
    (∀ (g : Nat → String) (cycle cycles i : Nat) (ts : String),
      cxxProgressLine g cycle cycles i ts = optProgressLine g cycle cycles i ts) ∧
    (∀ i : Nat, cxxSampleAt i = optSampleAt i) ∧
    (∀ (g : Nat → String) (iterations : Nat) (s e : String),
      cxxDetailSummaryLine g iterations s e = optDetailSummaryLine g iterations s e) ∧
    (∀ p : Nat, cxxPauseLine p = optPauseLine p) ∧
    (∀ (sum cycles avg : Nat) (s e : String) (b : ElapsedBreakdown),
      cxxFinalBlock sum cycles avg s e b = optFinalBlock sum cycles avg s e b) ∧
    wallRun (fun t => t / 1000) 50 1950 30 ≠ monoRun 50 1950 30 :=
  ⟨fun _ _ _ _ => rfl, fun _ _ _ _ _ => rfl, fun _ => rfl, fun _ _ _ _ => rfl,
   fun _ => rfl, fun _ _ _ _ _ _ => rfl, by decide⟩

/-- Claim C4, as stated, is false at a concrete input: with
`getCurrentSecond()` returning 7, 8, 9, 3 on successive reads, the pause
loop of `src/program.cxx` sleeps once, after a check that saw second 8
(a multiple of 8), but the sleep lasts 700 ms — derived from the earlier
sample 7 — not `8 × 100 = 800` ms as the claim requires. -/
theorem C4_counterexample :
    cxxPauseRun c4Secs 10 = [(8, 700)] ∧ ¬ ((700 : Nat) = 8 * 100) := by
  decide

/-- Claim C4 (amended): in both variants the pause loop repeats while the
freshly sampled second-of-minute is a multiple of 8, re-sampling after
each sleep; in `src/program_optimized.cxx` each sleep lasts exactly
`secondOfMinute × 100` ms for the very sample the check saw, while in
`src/program.cxx` the i-th executed sleep checks sample `2i+1` but
sleeps for `sample(2i) × 100` ms — the duration comes from the preceding
read (the initial read before the first check, then the read taken right
after each sleep), which may differ from the checked sample. -/
theorem C4_pause_sleeps :
    (∀ (s : Nat → Nat) (fuel ridx : Nat) (p : Nat × Nat),
      p ∈ optPauseLoop s fuel ridx → p.1 % 8 = 0 ∧ p.2 = p.1 * 100) ∧
    (∀ (s : Nat → Nat) (fuel i : Nat) (p : Nat × Nat),
      (cxxPauseRun s fuel).get? i = some p →
      p = (s (2 * i + 1), s (2 * i) * 100) ∧ s (2 * i + 1) % 8 = 0) := by
  refine ⟨optPauseLoop_mem, ?_⟩
  intro s fuel i p h
  have h0 : cxxPauseRun s fuel = cxxPauseLoop s fuel (2 * 0 + 1) (s (2 * 0) * 100) := by
    norm_num [cxxPauseRun]
  rw [h0] at h
  have := cxxPauseLoop_entries s fuel 0 i p h
  simpa using this

/-- Concrete instance of the amended C4: a sleep of the optimized loop
with both reads equal to 8, and the first sleep of the `src/program.cxx`
loop on the 7, 8, 9, 3 sample sequence. -/
theorem C4_pause_sleeps_witness :
    (((8, 800) : Nat × Nat).1 % 8 = 0 ∧
      ((8, 800) : Nat × Nat).2 = ((8, 800) : Nat × Nat).1 * 100) ∧
    (((8, 700) : Nat × Nat) = (c4Secs (2 * 0 + 1), c4Secs (2 * 0) * 100) ∧
      c4Secs (2 * 0 + 1) % 8 = 0) :=
  ⟨C4_pause_sleeps.1 (fun _ => 8) 1 0 (8, 800) (by decide),
   C4_pause_sleeps.2 c4Secs 10 0 (8, 700) (by decide)⟩

/-- Claim C5, as stated, is false at a concrete input: when the
detail-file open fails in cycle 1 of `c5CexEnvs`, the run indeed
continues (both cycles produce results and the count is summed), but
nothing at all is written to the error stream — the failure is silently
dropped, contradicting the claim's reporting requirement. -/
theorem C5_counterexample :
    (runCycles 64 c5CexEnvs).detailFilesWritten = 1 ∧
    (runCycles 64 c5CexEnvs).errLines = [] ∧
    (runCycles 64 c5CexEnvs).results.length = 2 ∧
    (runCycles 64 c5CexEnvs).sumOfIterations = 12345 + 67890 := by
  decide

/-- Claim C5 (amended): a failed detail-file write never aborts the run —
the cycle's iteration count is still added to the running total and
every remaining cycle executes — but the failure is not reported: the
cycle loop writes nothing to the error stream, silently skipping the
file. -/
theorem C5_detail_write_failure (w : Nat) (envs : List CycleEnv) :
    (runCycles w envs).results.length = envs.length ∧
    (runCycles w envs).sumOfIterations =
      (envs.map (fun e => e.bodyCount)).sum % 2 ^ w ∧
    (runCycles w envs).detailFilesWritten = envs.countP (fun e => e.detailOpenOk) ∧
    (runCycles w envs).errLines = [] :=
  ⟨runCycles_len w envs, runCycles_sum w envs, runCycles_detail w envs,
   runCycles_err w envs⟩

/-- Claim C6, as stated, is false at a concrete input: the summary-log
append fails in cycle 1 of `c6CexEnvs`, yet the remaining cycle still
executes, `main` still returns 0, and no error is reported — the run
does not abort. -/
theorem C6_counterexample :
    (mainAfterDirs 64 c6CexEnvs).1.results.length = 2 ∧
    (mainAfterDirs 64 c6CexEnvs).2 = 0 ∧
    (mainAfterDirs 64 c6CexEnvs).1.summaryBlocksAppended = 1 ∧
    (mainAfterDirs 64 c6CexEnvs).1.errLines = [] := by
  decide

/-- Claim C6 (amended): a failed append to the shared summary log is
completely ignored — the code performs the append with no success check,
so the block is simply lost, no error is reported, all remaining cycles
execute, and `main` still exits with code 0. -/
theorem C6_summary_append_failure (w : Nat) (envs : List CycleEnv) :
    (mainAfterDirs w envs).2 = 0 ∧
    (mainAfterDirs w envs).1.results.length = envs.length ∧
    (mainAfterDirs w envs).1.summaryBlocksAppended =
      envs.countP (fun e => e.summaryAppendOk) ∧
    (mainAfterDirs w envs).1.errLines = [] :=
  ⟨rfl, runCycles_len w envs, runCycles_summary w envs, runCycles_err w envs⟩

/-- Claim C7, as stated, is false at a concrete input: the numeric input
`-1` is non-positive, yet `std::cin >> cycles` into the unsigned `n_type`
(width 64) stores `2 ^ 64 - 1` with the stream still good, so the
program runs `2 ^ 64 - 1` cycles and emits no warning — it does not
substitute 1. -/
theorem C7_counterexample :
    readCycleCount 64 (StdInput.numeric (-1)) ≠ (1, true) ∧
    readCycleCount 64 (StdInput.numeric (-1)) = (2 ^ 64 - 1, false) := by
  decide

/-- Claim C7 (amended): for non-numeric input and for the numeral 0 the
program substitutes a cycle count of 1, emits the warning to the error
stream, does not abort, and runs exactly one cycle (identically to input
1); a negative numeral, however, is wrapped modulo `2 ^ w` by the
unsigned extraction and accepted as a large positive cycle count with no
warning. -/
theorem C7_invalid_input_default (w : Nat) (inp : StdInput)
    (h : inp = StdInput.nonNumeric ∨ inp = StdInput.numeric 0) :
    readCycleCount w inp = (1, true) ∧
    ∀ env : CycleEnv,
      (runCycles w (List.replicate (readCycleCount w inp).1 env)).results.length = 1 := by
  have hr : readCycleCount w inp = (1, true) := by
    rcases h with h | h
    · subst h
      rfl
    · subst h
      simp [readCycleCount, cinExtractUnsigned, Int.zero_emod]
  refine ⟨hr, ?_⟩
  intro env
  rw [hr, runCycles_len]
  simp

/-- Concrete instance of the amended C7 at width 64 with non-numeric
input. -/
theorem C7_invalid_input_default_witness :
    readCycleCount 64 StdInput.nonNumeric = (1, true) :=
  (C7_invalid_input_default 64 StdInput.nonNumeric (Or.inl rfl)).1

/-- Claim C8: for every non-negative elapsed-milliseconds value, the
days/hours/minutes/seconds/ms decomposition computed for the final
summary satisfies `hours < 24`, `minutes < 60`, `seconds < 60`,
`ms < 1000`, and recombining the fields reproduces the original value
exactly. -/
theorem C8_breakdown_exact (t : Nat) :
    (elapsedBreakdown t).hours < 24 ∧ (elapsedBreakdown t).minutes < 60 ∧
    (elapsedBreakdown t).seconds < 60 ∧ (elapsedBreakdown t).ms < 1000 ∧
    (elapsedBreakdown t).days * 86400000 + (elapsedBreakdown t).hours * 3600000 +
      (elapsedBreakdown t).minutes * 60000 + (elapsedBreakdown t).seconds * 1000 +
      (elapsedBreakdown t).ms = t := by
  simp only [elapsedBreakdown]
  omega

/-- Claim C9: the reported average is exactly `totalIterations /
cycleCount` with truncating integer division; in particular two cycles
totalling `5000001 + 4999999` iterations average to 5000000. -/
theorem C9_average_truncating (sum cycles : Nat) (h : 1 ≤ cycles) :
    avgOpsPerSec sum cycles = sum / cycles ∧
    avgOpsPerSec sum cycles * cycles ≤ sum ∧
    sum < (avgOpsPerSec sum cycles + 1) * cycles ∧
    avgOpsPerSec (5000001 + 4999999) 2 = 5000000 := by
  have hpos : 0 < cycles := h
  have havg : avgOpsPerSec sum cycles = sum / cycles := by
    simp [avgOpsPerSec, hpos]
  refine ⟨havg, ?_, ?_, by decide⟩
  · rw [havg]
    exact Nat.div_mul_le_self sum cycles
  · rw [havg]
    exact (Nat.div_lt_iff_lt_mul hpos).mp (Nat.lt_succ_self _)

/-- The claimed example instance: totals of 5000001 and 4999999 yield
average 5000000. -/
theorem C9_average_truncating_witness :
    avgOpsPerSec (5000001 + 4999999) 2 = (5000001 + 4999999) / 2 ∧
    avgOpsPerSec (5000001 + 4999999) 2 * 2 ≤ 5000001 + 4999999 ∧
    5000001 + 4999999 < (avgOpsPerSec (5000001 + 4999999) 2 + 1) * 2 ∧
    avgOpsPerSec (5000001 + 4999999) 2 = 5000000 :=
  C9_average_truncating (5000001 + 4999999) 2 (by decide)

/-- Claim C10: iteration counting and the running total live in the
unsigned `n_type` of width `w ≥ 32`, so every recorded per-cycle count is
below `2 ^ w` and `RunSummary.totalIterations` is the true sum of all
cycles' body counts reduced modulo `2 ^ w`; whenever that true sum
reaches `2 ^ w`, the total silently wraps and no longer equals it. -/
theorem C10_modular_wraparound (w : Nat) (envs : List CycleEnv) (hw : 32 ≤ w) :
    (runCycles w envs).sumOfIterations =
      (envs.map (fun e => e.bodyCount)).sum % 2 ^ w ∧
    (∀ r ∈ (runCycles w envs).results, r.iterationCount < 2 ^ w) ∧
    (2 ^ w ≤ (envs.map (fun e => e.bodyCount)).sum →
      (runCycles w envs).sumOfIterations ≠ (envs.map (fun e => e.bodyCount)).sum) := by
  refine ⟨runCycles_sum w envs, ?_, ?_⟩
  · intro r hr
    have hmem : r.iterationCount ∈
        (runCycles w envs).results.map (fun r => r.iterationCount) :=
      List.mem_map_of_mem _ hr
    rw [runCycles_iterCounts] at hmem
    obtain ⟨e, _, he⟩ := List.mem_map.mp hmem
    rw [← he]
    exact Nat.mod_lt _ (modulusPos w)
  · intro hge
    rw [runCycles_sum]
    have := Nat.mod_lt (envs.map (fun e => e.bodyCount)).sum (modulusPos w)
    omega

/-- Concrete instance of C10 at width 64: two cycles of `2 ^ 63` bodies
each wrap the total to 0. -/
theorem C10_modular_wraparound_witness :
    (runCycles 64 [⟨2 ^ 63, true, true⟩, ⟨2 ^ 63 + 5, true, true⟩]).sumOfIterations =
      (([⟨2 ^ 63, true, true⟩, ⟨2 ^ 63 + 5, true, true⟩] : List CycleEnv).map
        (fun e => e.bodyCount)).sum % 2 ^ 64 :=
  (C10_modular_wraparound 64 [⟨2 ^ 63, true, true⟩, ⟨2 ^ 63 + 5, true, true⟩]
    (by norm_num)).1

end Gautier
